import Mathlib

/-!
Verification development for the dacite fork: a shallow embedding of
`dacite/core.py` and `dacite/dataclasses_helpers.py` over a deep model of
Python runtime values and type hints, together with theorems settling the
behavioural claims about `from_dict`, the union resolver, the collection
reconstructor and the dotted-path navigator.

Modelling conventions:
* Python runtime values are `PyVal`; dicts are association lists with
  string keys (the only key kind the library's data paths exercise).
* Declared field types (type hints) are `PyType`.  `Optional[T]` is
  `PyType.tUnion [T, PyType.tNone]`, as in `typing`.  Floats, `InitVar`,
  fixed-tuple hints and unparameterised generics are outside the modelled
  universe; no claim concerns them.
* Python exceptions are the explicit error type `PyErr`; values that the
  source interpolates into formatted exception messages are kept as
  structured payloads.
* Recursion in `from_dict`/`_build_value` is modelled with explicit fuel;
  every function of the mutual block consumes one unit of fuel on entry and
  reports exhaustion as the distinguished error `PyErr.fuelOut`, which no
  source-level code path produces.
* The helpers of `dacite/types.py` (`is_instance`, `is_union`,
  `is_optional`, `extract_generic`, `is_subclass`, ...) are not among the
  provided sources; they are modelled from the spec's type-descriptor
  section, and each such definition is marked `Modelled from the spec`.
-/

namespace Dacite

/-- Python runtime values as produced by a JSON/YAML-style parser, plus
dataclass instances (`inst name attrs`). -/
inductive PyVal where
  | none : PyVal
  | bool : Bool → PyVal
  | int : Int → PyVal
  | str : String → PyVal
  | list : List PyVal → PyVal
  | tuple : List PyVal → PyVal
  | set : List PyVal → PyVal
  | dict : List (String × PyVal) → PyVal
  | inst : String → List (String × PyVal) → PyVal

/-- Declared type hints: leaf classes, parameterised collections, unions and
dataclasses (referenced by name). -/
inductive PyType where
  | tNone : PyType
  | tBool : PyType
  | tInt : PyType
  | tStr : PyType
  | tList : PyType → PyType
  | tSet : PyType → PyType
  | tDict : PyType → PyType → PyType
  | tUnion : List PyType → PyType
  | tData : String → PyType

/-- Python classes, the possible results of `type(value)`. -/
inductive PyClass where
  | noneC : PyClass
  | boolC : PyClass
  | intC : PyClass
  | strC : PyClass
  | listC : PyClass
  | tupleC : PyClass
  | setC : PyClass
  | dictC : PyClass
  | dataC : String → PyClass
deriving DecidableEq

/-- Registered path specification for a field: a dotted path string or an
ordered list of candidate dotted paths.  The skip sentinel of the source is
the literal string `"SKIPME"`. -/
inductive PathSpec where
  | str : String → PathSpec
  | list : List String → PathSpec
deriving DecidableEq

/-- Python exceptions raised by the modelled code.  The dacite field errors
carry their dotted location path as a list of segments (`update_path`
prepends a segment); payloads that the source interpolates into message
strings are kept structurally (`defaultValueNotFoundAt` carries the
path-spec and data of the formatted message). -/
inductive PyErr where
  | wrongType : List String → PyType → PyVal → PyErr
  | missingValue : List String → PyErr
  | unexpectedData : List String → PyErr
  | unionMatch : List String → PyType → PyVal → PyErr
  | strictUnionMatch : List String → List PyType → PyErr
  | keyError : String → PyErr
  | indexError : PyErr
  | typeError : String → PyErr
  | valueError : String → PyErr
  | defaultValueNotFound : PyErr
  | defaultValueNotFoundAt : PathSpec → List (String × PyVal) → PyErr
  | fuelOut : PyErr

mutual

/-- Structural equality test on runtime values, modelling Python `==` on the
parser-value universe (used only for `set` deduplication). -/
def PyVal.beq : PyVal → PyVal → Bool
  | .none, .none => true
  | .bool a, .bool b => a == b
  | .int a, .int b => a == b
  | .str a, .str b => a == b
  | .list xs, .list ys => beqValList xs ys
  | .tuple xs, .tuple ys => beqValList xs ys
  | .set xs, .set ys => beqValList xs ys
  | .dict xs, .dict ys => beqValPairs xs ys
  | .inst n xs, .inst m ys => n == m && beqValPairs xs ys
  | _, _ => false

/-- Elementwise equality of value lists. -/
def beqValList : List PyVal → List PyVal → Bool
  | [], [] => true
  | x :: xs, y :: ys => PyVal.beq x y && beqValList xs ys
  | _, _ => false

/-- Pairwise equality of string-keyed value association lists. -/
def beqValPairs : List (String × PyVal) → List (String × PyVal) → Bool
  | [], [] => true
  | (k, x) :: xs, (l, y) :: ys => k == l && PyVal.beq x y && beqValPairs xs ys
  | _, _ => false

end

instance : BEq PyVal := ⟨PyVal.beq⟩

mutual

/-- Structural equality test on type hints, modelling Python `==` on typing
objects (exact hint equality, as used for `type_hooks` lookup and the union
match dictionary). -/
def PyType.beq : PyType → PyType → Bool
  | .tNone, .tNone => true
  | .tBool, .tBool => true
  | .tInt, .tInt => true
  | .tStr, .tStr => true
  | .tList a, .tList b => PyType.beq a b
  | .tSet a, .tSet b => PyType.beq a b
  | .tDict a c, .tDict b d => PyType.beq a b && PyType.beq c d
  | .tUnion xs, .tUnion ys => beqTypeList xs ys
  | .tData n, .tData m => n == m
  | _, _ => false

/-- Elementwise equality of type lists. -/
def beqTypeList : List PyType → List PyType → Bool
  | [], [] => true
  | x :: xs, y :: ys => PyType.beq x y && beqTypeList xs ys
  | _, _ => false

end

instance : BEq PyType := ⟨PyType.beq⟩

/-- Runtime class of a value, modelling Python `type(value)`. -/
def pyClassOf : PyVal → PyClass
  | .none => .noneC
  | .bool _ => .boolC
  | .int _ => .intC
  | .str _ => .strC
  | .list _ => .listC
  | .tuple _ => .tupleC
  | .set _ => .setC
  | .dict _ => .dictC
  | .inst n _ => .dataC n

/-- Class denoted by a type hint when the hint is a plain class; `none` for
parameterised generics and unions, which are not classes at runtime. -/
def classOfType : PyType → Option PyClass
  | .tNone => some .noneC
  | .tBool => some .boolC
  | .tInt => some .intC
  | .tStr => some .strC
  | .tData n => some (.dataC n)
  | _ => Option.none

/-- Subclass relation between modelled classes: reflexivity plus Python's
`bool`-is-a-subclass-of-`int`.  The modelled dataclasses are unrelated. -/
def pySubclass (a b : PyClass) : Bool :=
  a == b || (a == .boolC && b == .intC)

/-- Python `issubclass(t, c)` with a type hint as first argument: raises
`TypeError` when the hint is not a plain class (as `issubclass` does for
`typing` generics and unions). -/
def issubclassCheck (t : PyType) (c : PyClass) : Except PyErr Bool :=
  match classOfType t with
  | some a => .ok (pySubclass a c)
  | Option.none => .error (.typeError "issubclass() arg 1 must be a class")

/-- Modelled from the spec: `dacite.types.is_union` is not among the
sources; a union descriptor is the `Union(T1..Tn)` variant. -/
def is_union : PyType → Bool
  | .tUnion _ => true
  | _ => false

/-- Modelled from the spec: `dacite.types.is_optional` is not among the
sources; per the spec an Optional is a union among whose members is the
null type. -/
def is_optional : PyType → Bool
  | .tUnion ms => ms.contains .tNone
  | _ => false

/-- Modelled from the spec: `dacite.types.is_generic_collection` is not
among the sources; the generic-collection descriptors are the parameterised
sequence, set and mapping hints. -/
def is_generic_collection : PyType → Bool
  | .tList _ => true
  | .tSet _ => true
  | .tDict _ _ => true
  | _ => false

/-- Modelled from the spec: `dacite.types.extract_generic` is not among the
sources; it returns the declared parameter list of a union or collection
hint. -/
def extract_generic : PyType → List PyType
  | .tList e => [e]
  | .tSet e => [e]
  | .tDict k v => [k, v]
  | .tUnion ms => ms
  | _ => []

/-- Container class of a collection hint, modelling `__origin__` /
`extract_origin_collection` on the modelled universe. -/
def collClass : PyType → Option PyClass
  | .tList _ => some .listC
  | .tSet _ => some .setC
  | .tDict _ _ => some .dictC
  | _ => Option.none

/-- First declared element parameter of a collection hint, modelling
`extract_generic(collection, defaults=(Any,))[0]` (always parameterised in
the modelled universe). -/
def firstArg : PyType → PyType
  | .tList e => e
  | .tSet e => e
  | .tDict k _ => k
  | _ => .tNone

/-- Second declared parameter of a mapping hint, modelling
`extract_generic(collection, defaults=(Any, Any))[1]`. -/
def secondArg : PyType → PyType
  | .tDict _ v => v
  | _ => .tNone

/-- Hints that are `types.GenericAlias` or `typing._GenericAlias` objects at
runtime: parameterised collections and (typing) unions, including
`Optional`.  Plain classes and dataclasses are not. -/
def isGenericAlias : PyType → Bool
  | .tList _ => true
  | .tSet _ => true
  | .tDict _ _ => true
  | .tUnion _ => true
  | _ => false

mutual

/-- Modelled from the spec: `dacite.types.is_instance` is not among the
sources; per the spec it is a structural instance-of match against the full
declared type, covering unions, optionals, nested composites and generic
collections (dict keys are strings in the modelled universe and are checked
against the declared key parameter). -/
def is_instance : PyVal → PyType → Bool
  | v, .tUnion ms => anyInst v ms
  | .none, .tNone => true
  | .bool _, .tBool => true
  | .bool _, .tInt => true
  | .int _, .tInt => true
  | .str _, .tStr => true
  | .list xs, .tList e => xs.all fun x => is_instance x e
  | .set xs, .tSet e => xs.all fun x => is_instance x e
  | .dict kvs, .tDict kt vt =>
      (kvs.all fun kv => is_instance (.str kv.1) kt) &&
      (kvs.all fun kv => is_instance kv.2 vt)
  | .inst n _, .tData m => n == m
  | _, _ => false

/-- Disjunction of `is_instance` over the members of a union. -/
def anyInst : PyVal → List PyType → Bool
  | _, [] => false
  | v, t :: ts => is_instance v t || anyInst v ts

end

/-- Python `isinstance(value, Mapping)` on the modelled universe. -/
def isMappingVal (v : PyVal) : Bool :=
  pyClassOf v == .dictC

/-- Python `isinstance(value, tuple)` on the modelled universe. -/
def isTupleVal (v : PyVal) : Bool :=
  pyClassOf v == .tupleC

/-- Python `isinstance(value, Collection)` on the modelled universe:
lists, tuples, sets, dicts and strings are Collections. -/
def isCollectionVal (v : PyVal) : Bool :=
  match pyClassOf v with
  | .listC => true
  | .tupleC => true
  | .setC => true
  | .dictC => true
  | .strC => true
  | _ => false

/-- Modelled from the spec: `is_subclass(collection, Mapping)` for a
collection hint — only mapping hints have a mapping container class. -/
def subOfMapping (t : PyType) : Bool :=
  match collClass t with
  | some .dictC => true
  | _ => false

/-- Modelled from the spec: `is_subclass(collection, tuple)` for a
collection hint — no modelled collection hint has a tuple container
class (fixed-tuple hints are outside the modelled universe). -/
def subOfTuple (t : PyType) : Bool :=
  match collClass t with
  | some .tupleC => true
  | _ => false

/-- Modelled from the spec: `is_subclass(collection, Collection)` for a
collection hint — list, set and mapping container classes are Collection
subclasses. -/
def subOfCollection (t : PyType) : Bool :=
  match collClass t with
  | some .listC => true
  | some .setC => true
  | some .dictC => true
  | _ => false

/-- Elements produced by iterating a value (Python `iter`): list, tuple and
set elements, dict keys, and the characters of a string. -/
def iterOf : PyVal → List PyVal
  | .list xs => xs
  | .tuple xs => xs
  | .set xs => xs
  | .dict kvs => kvs.map fun kv => .str kv.1
  | .str s => s.toList.map fun c => .str (String.mk [c])
  | _ => []

/-- Deduplication keeping the first occurrence, as Python `set`
construction does while consuming an iterable. -/
def pyDedupAux (seen : List PyVal) : List PyVal → List PyVal
  | [] => []
  | x :: xs =>
      if seen.any fun y => PyVal.beq y x then pyDedupAux seen xs
      else x :: pyDedupAux (x :: seen) xs

/-- Deduplicated element list of a freshly built Python set. -/
def pyDedup (xs : List PyVal) : List PyVal :=
  pyDedupAux [] xs

/-- Application of a container class to a generator of elements, modelling
`data_type(<generator>)` in `_build_value_for_collection`.  A string class
applied to a generator yields the generator's repr (kept as an opaque
marker string); a dict class applied to non-pair elements raises
`TypeError`, as in Python. -/
def classConstructFromIter (c : PyClass) (xs : List PyVal) : Except PyErr PyVal :=
  match c with
  | .listC => .ok (.list xs)
  | .tupleC => .ok (.tuple xs)
  | .setC => .ok (.set (pyDedup xs))
  | .strC => .ok (.str "<generator>")
  | .dictC => .error (.typeError "cannot convert dictionary update sequence")
  | _ => .error (.typeError "constructor does not accept a generator")

/-- Application of a collection hint's container class to an existing
value's elements, modelling `extract_origin_collection(type_)(data)` in the
casting pass. -/
def originConstruct (t : PyType) (data : PyVal) : Except PyErr PyVal :=
  match collClass t with
  | some .listC =>
      if isCollectionVal data then .ok (.list (iterOf data))
      else .error (.typeError "object is not iterable")
  | some .setC =>
      if isCollectionVal data then .ok (.set (pyDedup (iterOf data)))
      else .error (.typeError "object is not iterable")
  | some .dictC =>
      match data with
      | .dict kvs => .ok (.dict kvs)
      | _ => .error (.typeError "cannot convert to dict")
  | _ => .error (.typeError "not a collection hint")

/-- Python `str(value)` for leaf values; container and instance reprs are
kept as an opaque marker (no claim exercises them). -/
def pyStr : PyVal → String
  | .none => "None"
  | .bool b => if b then "True" else "False"
  | .int n => toString n
  | .str s => s
  | _ => "<repr>"

/-- Python truthiness of a value. -/
def pyTruthy : PyVal → Bool
  | .none => false
  | .bool b => b
  | .int n => n != 0
  | .str s => s ≠ ""
  | .list xs => !xs.isEmpty
  | .tuple xs => !xs.isEmpty
  | .set xs => !xs.isEmpty
  | .dict kvs => !kvs.isEmpty
  | .inst _ _ => true

/-- Single-argument constructor call `type_(data)` for a plain class
target of the casting pass.  Dataclass single-argument construction and
container reprs are outside the modelled universe (no claim exercises
casting to them). -/
def classConstruct (t : PyType) (data : PyVal) : Except PyErr PyVal :=
  match t with
  | .tStr => .ok (.str (pyStr data))
  | .tBool => .ok (.bool (pyTruthy data))
  | .tNone => .error (.typeError "NoneType takes no arguments")
  | .tInt =>
      match data with
      | .int n => .ok (.int n)
      | .bool b => .ok (.int (if b then 1 else 0))
      | .str s =>
          match s.toInt? with
          | some n => .ok (.int n)
          | Option.none => .error (.valueError "invalid literal for int()")
      | _ => .error (.typeError "int() argument must be a string or a number")
  | _ => .error (.typeError "single-argument construction outside modelled universe")

/-- Modelled from the spec: `dacite.types.is_subclass` is not among the
sources; per the spec a cast target applies when it is an ancestor of (or
equal to) the declared type, a generic collection being compared through
its container class. -/
def is_subclass_ty (sub base : PyType) : Bool :=
  let subC := match collClass sub with
    | some c => some c
    | Option.none => classOfType sub
  let baseC := match collClass base with
    | some c => some c
    | Option.none => classOfType base
  match subC, baseC with
  | some a, some b => pySubclass a b
  | _, _ => false

/-- Casting pass of `_build_value`: scan `config.cast` in order; at the
first entry that is an ancestor of the target type, rebuild a generic
collection through its own container class or call the target's
single-argument constructor, and stop.  Returns the (possibly cast) value
and whether a cast applied. -/
def castLoop (t : PyType) (data : PyVal) : List PyType → Except PyErr (PyVal × Bool)
  | [] => .ok (data, false)
  | c :: rest =>
      if is_subclass_ty t c then
        if is_generic_collection t then
          match originConstruct t data with
          | .error e => .error e
          | .ok d => .ok (d, true)
        else
          match classConstruct t data with
          | .error e => .error e
          | .ok d => .ok (d, true)
      else castLoop t data rest

/-- Field descriptor of a dataclass, as produced by `get_fields` plus the
resolved type hint.  A default factory is modelled by the value it
returns. -/
structure FieldDef where
  name : String
  type : PyType
  init : Bool := true
  default : Option PyVal := Option.none
  default_factory : Option PyVal := Option.none

/-- Declared dataclass: its ordered fields and frozenness. -/
structure DataClassDef where
  fields : List FieldDef
  frozen : Bool := false

/-- Environment of declared dataclasses, keyed by class name (playing the
role of the runtime class objects). -/
abbrev Env := List (String × DataClassDef)

/-- Conversion configuration (`dacite/config.py`).  `forward_references`
is omitted: the environment plays the role of resolved hints, and no claim
concerns forward references. -/
structure Config where
  type_hooks : List (PyType × (PyVal → PyVal)) := []
  cast : List PyType := []
  check_types : Bool := true
  strict : Bool := false
  strict_unions_match : Bool := false
  allow_superclasses : Bool := false
  follow_type_hints : Bool := false
  paths : List (String × List (String × PathSpec)) := []

/-- Default configuration: `check_types` on, everything else off/empty. -/
def defaultConfig : Config := {}

/-- Tail of `_build_value` (lines 142-161 of `core.py`): the casting pass
followed, when no cast applied, by the `follow_type_hints` textual-to-`int`
coercion (the float arm is outside the modelled universe; a parse failure
propagates as `ValueError`). -/
def castAndFollow (type_ : PyType) (data : PyVal) (config : Config) :
    Except PyErr PyVal :=
  match castLoop type_ data config.cast with
  | .error e => .error e
  | .ok (data2, casted) =>
      if !casted && config.follow_type_hints &&
          pyClassOf data2 == PyClass.strC &&
          !(type_ == PyType.tStr) &&
          !(match data2 with | .none => true | _ => false) then
        if type_ == PyType.tInt then
          match data2 with
          | .str s =>
              match s.toInt? with
              | some n => .ok (.int n)
              | Option.none => .error (.valueError "invalid literal for int()")
          | _ => .ok data2
        else .ok data2
      else .ok data2

/-- Default value of the `default` parameter of `get`/`_get`, split by
whether it is an `Exception` instance (the source tests
`isinstance(default, Exception)`). -/
inductive DefaultVal where
  | exc : PyErr → DefaultVal
  | val : PyVal → DefaultVal

/-- Return the default, or raise it when it is an error value. -/
def defaultOrRaise : DefaultVal → Except PyErr PyVal
  | .exc e => .error e
  | .val v => .ok v

/-- Segment splitter modelling Python `path.split('.')`: splits at every
dot, keeping empty segments, and always yields at least one segment. -/
def splitDotAux : List Char → List Char → List String
  | [], acc => [String.mk acc.reverse]
  | c :: cs, acc =>
      if c = '.' then String.mk acc.reverse :: splitDotAux cs []
      else splitDotAux cs (c :: acc)

/-- Dotted-path segments of a path string (`path.split('.')`). -/
def splitDot (s : String) : List String :=
  splitDotAux s.data []

/-- Dotted-path walk over nested dicts (`_get` in
`dataclasses_helpers.py`): a missing segment returns the default unless the
default is an error (then it is raised); an intermediate segment resolving
to a non-dict raises `KeyError`; the empty segment list (unreachable from
`get`) models the `p[0]` `IndexError`. -/
def _get : List String → List (String × PyVal) → DefaultVal → Except PyErr PyVal
  | [], _, _ => .error .indexError
  | [k], d, dflt =>
      match d.lookup k with
      | some v => .ok v
      | Option.none => defaultOrRaise dflt
  | k :: k2 :: rest, d, dflt =>
      match d.lookup k with
      | Option.none => defaultOrRaise dflt
      | some (.dict d2) => _get (k2 :: rest) d2 dflt
      | some _ => .error (.keyError ("element is not a dict: " ++ k))

/-- Dotted-path lookup (`get` in `dataclasses_helpers.py`). -/
def get (path : String) (dicts : List (String × PyVal))
    (dflt : DefaultVal := .exc (.keyError "")) : Except PyErr PyVal :=
  _get (splitDot path) dicts dflt

/-- Candidate loop of `_get_deep_value` for a list path-spec: try each path
with a transient `KeyError` default, swallowing any failure; when all fail,
apply the caller's default (raise if it is an error value). -/
def deepLoop (data : List (String × PyVal)) (dflt : DefaultVal) :
    List String → Except PyErr PyVal
  | [] => defaultOrRaise dflt
  | p :: rest =>
      match get p data (.exc (.keyError "")) with
      | .ok v => .ok v
      | .error _ => deepLoop data dflt rest

/-- Ordered-candidate resolution (`_get_deep_value` in `core.py`): a single
path delegates to `get`; a list tries each candidate in order. -/
def _get_deep_value (data : List (String × PyVal)) (path_or_paths : PathSpec)
    (dflt : DefaultVal) : Except PyErr PyVal :=
  match path_or_paths with
  | .str p => get p data dflt
  | .list ps => deepLoop data dflt ps

/-- Registered path-spec of a field of a composite, from
`config.paths[data_class][field.name]`. -/
def pathsLookup (paths : List (String × List (String × PathSpec)))
    (cls fname : String) : Option PathSpec :=
  match paths.lookup cls with
  | some m => m.lookup fname
  | Option.none => Option.none

/-- Default-value rule of a field (`get_default_value_for_field`): explicit
default, then default factory, then `None` for an optional type, else
`DefaultValueNotFoundError`. -/
def get_default_value_for_field (fld : FieldDef) : Except PyErr PyVal :=
  match fld.default with
  | some v => .ok v
  | Option.none =>
      match fld.default_factory with
      | some v => .ok v
      | Option.none =>
          if is_optional fld.type then .ok .none
          else .error .defaultValueNotFound

/-- Fallback handed to the path navigator by the remapping branch of
`from_dict`: the field's eagerly computed default, or a
`DefaultValueNotFoundError` carrying the path-spec and data of its
formatted message. -/
def pathBranchDefault (fld : FieldDef) (pp : PathSpec)
    (data : List (String × PyVal)) : DefaultVal :=
  match get_default_value_for_field fld with
  | .ok v => .val v
  | .error _ => .exc (.defaultValueNotFoundAt pp data)

/-- Whether an exception is a `DaciteFieldError` (carries a field path):
`WrongTypeError`, `MissingValueError`, `UnionMatchError`,
`StrictUnionMatchError`. -/
def isDaciteFieldError : PyErr → Bool
  | .wrongType _ _ _ => true
  | .missingValue _ => true
  | .unionMatch _ _ _ => true
  | .strictUnionMatch _ _ => true
  | _ => false

/-- Field-path update on re-raise (`error.update_path(field.name)`):
prepends the field segment to a `DaciteFieldError`'s location path; other
exceptions propagate unchanged. -/
def update_path (fname : String) : PyErr → PyErr
  | .wrongType p t v => .wrongType (fname :: p) t v
  | .missingValue p => .missingValue (fname :: p)
  | .unionMatch p t v => .unionMatch (fname :: p) t v
  | .strictUnionMatch p ts => .strictUnionMatch (fname :: p) ts
  | e => e

/-- Evaluation of the comprehension `[issubclass(t, cls) for t in ts]`:
every `issubclass` result is materialised, and an exception from any
element propagates. -/
def issubList (cls : PyClass) : List PyType → Except PyErr (List Bool)
  | [] => .ok []
  | t :: ts =>
      match issubclassCheck t cls with
      | .error e => .error e
      | .ok b =>
          match issubList cls ts with
          | .error e => .error e
          | .ok bs => .ok (b :: bs)

/-- Evaluation of `reduce(operator.or_, [issubclass(t, cls) for t in ts])`:
the materialised comprehension is or-folded; `reduce` of an empty list
raises `TypeError`. -/
def foldOrSubclass (cls : PyClass) (ts : List PyType) : Except PyErr Bool :=
  match issubList cls ts with
  | .error e => .error e
  | .ok [] => .error (.typeError "reduce() of empty iterable with no initial value")
  | .ok bs => .ok (bs.any id)

/-- The `check_types` verification applied by `from_dict` to a
directly-keyed field's built value (lines 90-110 of `core.py`): a union
under `allow_superclasses` is checked by or-folding `issubclass` over its
members; a generic-alias hint is checked only when its origin is `list`
(the value must literally be a list and, when non-empty, the declared
element type must be a subclass of the first element's runtime type);
otherwise an `allow_superclasses` ancestor match passes, and failing that a
structural `is_instance` match is required. -/
def checkTypesVerify (cfg : Config) (fname : String) (ftype : PyType)
    (value : PyVal) : Except PyErr Unit :=
  if cfg.allow_superclasses && is_union ftype then
    match foldOrSubclass (pyClassOf value) (extract_generic ftype) with
    | .error e => .error e
    | .ok b =>
        if !b then .error (.wrongType [fname] ftype value) else .ok ()
  else if isGenericAlias ftype then
    match ftype with
    | .tList contained =>
        match value with
        | .list [] => .ok ()
        | .list (x :: _) =>
            match issubclassCheck contained (pyClassOf x) with
            | .error e => .error e
            | .ok true => .ok ()
            | .ok false => .error (.wrongType [fname] ftype value)
        | _ => .error (.wrongType [fname] ftype value)
    | _ => .ok ()
  else
    let super := cfg.allow_superclasses &&
      (match issubclassCheck ftype (pyClassOf value) with
       | .ok b => b
       | .error _ => false)
    if super then .ok ()
    else if is_instance value ftype then .ok ()
    else .error (.wrongType [fname] ftype value)

/-- Raw-map keys matching no declared field name
(`set(data.keys()) - {f.name for f in data_class_fields}`, kept in map
order). -/
def extraKeys (data : List (String × PyVal)) (fields : List FieldDef) :
    List String :=
  (data.map Prod.fst).filter fun k => !((fields.map FieldDef.name).contains k)

/-- Insertion into the `union_matches` dict keyed by candidate type:
replace in place on an existing key, else append (Python dicts preserve
insertion order). -/
def dictInsert (m : List (PyType × PyVal)) (k : PyType) (v : PyVal) :
    List (PyType × PyVal) :=
  if m.any fun kv => kv.1 == k then
    m.map fun kv => if kv.1 == k then (k, v) else kv
  else m ++ [(k, v)]

/-- Attributes set by `data_class(**init_values)`: every `init` field takes
its keyword argument, else its declared default or factory, else the
construction fails with the missing-argument `TypeError`; a non-`init`
field with a declared default or factory is also visible as an attribute
after construction. -/
def initAttrs (inits : List (String × PyVal)) :
    List FieldDef → Except PyErr (List (String × PyVal))
  | [] => .ok []
  | fld :: rest =>
      let tail := initAttrs inits rest
      if fld.init then
        match inits.lookup fld.name with
        | some v => tail.map fun xs => (fld.name, v) :: xs
        | Option.none =>
            match fld.default with
            | some v => tail.map fun xs => (fld.name, v) :: xs
            | Option.none =>
                match fld.default_factory with
                | some v => tail.map fun xs => (fld.name, v) :: xs
                | Option.none =>
                    .error (.typeError ("missing required argument: " ++ fld.name))
      else
        match fld.default with
        | some v => tail.map fun xs => (fld.name, v) :: xs
        | Option.none =>
            match fld.default_factory with
            | some v => tail.map fun xs => (fld.name, v) :: xs
            | Option.none => tail

/-- Post-construction `setattr`: replace an existing attribute or append a
new one. -/
def setAttr (attrs : List (String × PyVal)) (kv : String × PyVal) :
    List (String × PyVal) :=
  if attrs.any fun p => p.1 == kv.1 then
    attrs.map fun p => if p.1 == kv.1 then kv else p
  else attrs ++ [kv]

mutual

/-- The object assembler (`from_dict` in `core.py`): look the composite up,
apply the strict unknown-key check over the whole raw map, resolve every
field in declaration order, construct the instance from the init values and
apply the post-init values by `setattr`. -/
def from_dict (fuel : Nat) (env : Env) (cls : String)
    (data : List (String × PyVal)) (config : Config) : Except PyErr PyVal :=
  match fuel with
  | 0 => .error .fuelOut
  | fuel + 1 =>
      match env.lookup cls with
      | Option.none => .error (.typeError ("not a dataclass: " ++ cls))
      | some dcd =>
          if config.strict && !(extraKeys data dcd.fields).isEmpty then
            .error (.unexpectedData (extraKeys data dcd.fields))
          else
            match resolveFields fuel env cls dcd.frozen data config dcd.fields with
            | .error e => .error e
            | .ok (inits, posts) =>
                match initAttrs inits dcd.fields with
                | .error e => .error e
                | .ok attrs => .ok (.inst cls (posts.foldl setAttr attrs))

/-- The per-field loop of `from_dict`: resolve each field and route its
value into the init map (when the field participates in construction) or
the post-init map (unless the composite is frozen, in which case the value
is dropped); a field resolved to nothing is skipped. -/
def resolveFields (fuel : Nat) (env : Env) (cls : String) (frozen : Bool)
    (data : List (String × PyVal)) (config : Config)
    (fields : List FieldDef) :
    Except PyErr (List (String × PyVal) × List (String × PyVal)) :=
  match fuel with
  | 0 => .error .fuelOut
  | fuel + 1 =>
      match fields with
      | [] => .ok ([], [])
      | fld :: rest =>
          match processField fuel env cls data config fld with
          | .error e => .error e
          | .ok Option.none => resolveFields fuel env cls frozen data config rest
          | .ok (some v) =>
              match resolveFields fuel env cls frozen data config rest with
              | .error e => .error e
              | .ok (inits, posts) =>
                  if fld.init then .ok ((fld.name, v) :: inits, posts)
                  else if !frozen then .ok (inits, (fld.name, v) :: posts)
                  else .ok (inits, posts)

/-- Resolution of one field of `from_dict`'s loop (lines 64-117 of
`core.py`): a registered path-spec equal to the `"SKIPME"` sentinel skips
the field (`continue`); any other path-spec resolves the raw value through
the path navigator with the eagerly computed default and builds from it,
with no type check and no path update; a direct key builds from the keyed
raw value, updating the path of dacite field errors and applying the
`check_types` verification; otherwise the default rule applies, a
defaultless non-init field is skipped, and a defaultless init field raises
`MissingValueError`. -/
def processField (fuel : Nat) (env : Env) (cls : String)
    (data : List (String × PyVal)) (config : Config) (fld : FieldDef) :
    Except PyErr (Option PyVal) :=
  match fuel with
  | 0 => .error .fuelOut
  | fuel + 1 =>
      match pathsLookup config.paths cls fld.name with
      | some path_or_paths =>
          if path_or_paths = PathSpec.str "SKIPME" then .ok Option.none
          else
            match _get_deep_value data path_or_paths
                (pathBranchDefault fld path_or_paths data) with
            | .error e => .error e
            | .ok deepData =>
                match _build_value fuel env fld.type deepData config with
                | .error e => .error e
                | .ok v => .ok (some v)
      | Option.none =>
          match data.lookup fld.name with
          | some fieldData =>
              match _build_value fuel env fld.type fieldData config with
              | .error e => .error (update_path fld.name e)
              | .ok value =>
                  if config.check_types then
                    match checkTypesVerify config fld.name fld.type value with
                    | .error e => .error e
                    | .ok _ => .ok (some value)
                  else .ok (some value)
          | Option.none =>
              match get_default_value_for_field fld with
              | .ok v => .ok (some v)
              | .error _ =>
                  if !fld.init then .ok Option.none
                  else .error (.missingValue [fld.name])

/-- The recursive value builder (`_build_value` in `core.py`): apply a
registered exact-type hook, short-circuit a null optional, dispatch to the
union resolver, the collection reconstructor or a nested `from_dict`, then
run the casting pass and the `follow_type_hints` string-to-int coercion
(the float arm is outside the modelled universe). -/
def _build_value (fuel : Nat) (env : Env) (type_ : PyType) (data : PyVal)
    (config : Config) : Except PyErr PyVal :=
  match fuel with
  | 0 => .error .fuelOut
  | fuel + 1 =>
      let data := match config.type_hooks.lookup type_ with
        | some hook => hook data
        | Option.none => data
      if is_optional type_ && (match data with | .none => true | _ => false) then
        .ok data
      else
        let built : Except PyErr PyVal :=
          if is_union type_ then
            _build_value_for_union fuel env type_ data config
          else if is_generic_collection type_ then
            _build_value_for_collection fuel env type_ data config
          else
            match type_, data with
            | .tData n, .dict kvs => from_dict fuel env n kvs config
            | _, _ => .ok data
        match built with
        | .error e => .error e
        | .ok data2 => castAndFollow type_ data2 config

/-- The union resolver (`_build_value_for_union`): the optional fast path
delegates to the builder for the first member; otherwise the candidate loop
runs over the members. -/
def _build_value_for_union (fuel : Nat) (env : Env) (union : PyType)
    (data : PyVal) (config : Config) : Except PyErr PyVal :=
  match fuel with
  | 0 => .error .fuelOut
  | fuel + 1 =>
      let types := extract_generic union
      if is_optional union && types.length == 2 then
        match types with
        | t0 :: _ => _build_value fuel env t0 data config
        | [] => .error .indexError
      else
        unionLoop fuel env union data config types []

/-- Candidate loop of the union resolver: a failed build silently
eliminates the candidate; an accepted candidate (structural match, or
ancestor match under `allow_superclasses`, whose `issubclass` may itself
raise for a generic member and then propagates) returns immediately in
non-strict mode or is collected in strict mode.  After the scan, strict
mode raises `StrictUnionMatchError` for more than one collected match and
otherwise pops the last match — `popitem` on an empty dict raises
`KeyError`; non-strict mode returns the raw value when `check_types` is
off, else raises `UnionMatchError`. -/
def unionLoop (fuel : Nat) (env : Env) (union : PyType) (data : PyVal)
    (config : Config) (types : List PyType)
    (union_matches : List (PyType × PyVal)) : Except PyErr PyVal :=
  match fuel with
  | 0 => .error .fuelOut
  | fuel + 1 =>
      match types with
      | [] =>
          if config.strict_unions_match then
            if 1 < union_matches.length then
              .error (.strictUnionMatch [] (union_matches.map Prod.fst))
            else
              match union_matches.getLast? with
              | some kv => .ok kv.2
              | Option.none => .error (.keyError "popitem(): dictionary is empty")
          else if !config.check_types then .ok data
          else .error (.unionMatch [] union data)
      | inner_type :: rest =>
          match _build_value fuel env inner_type data config with
          | .error _ => unionLoop fuel env union data config rest union_matches
          | .ok value =>
              if is_instance value inner_type then
                if config.strict_unions_match then
                  unionLoop fuel env union data config rest
                    (dictInsert union_matches inner_type value)
                else .ok value
              else if config.allow_superclasses then
                match issubclassCheck inner_type (pyClassOf value) with
                | .error e => .error e
                | .ok true =>
                    if config.strict_unions_match then
                      unionLoop fuel env union data config rest
                        (dictInsert union_matches inner_type value)
                    else .ok value
                | .ok false => unionLoop fuel env union data config rest union_matches
              else unionLoop fuel env union data config rest union_matches

/-- The collection reconstructor (`_build_value_for_collection`): a mapping
raw for a mapping target rebuilds each value keeping keys and the raw dict
class; a tuple raw for a tuple target cannot arise in the modelled universe
(no fixed-tuple hints); any other Collection raw for a sequence/set/mapping
target rebuilds every element against the first declared parameter and
feeds the results to the raw value's own class constructor; anything else
is returned unchanged. -/
def _build_value_for_collection (fuel : Nat) (env : Env)
    (collection : PyType) (data : PyVal) (config : Config) :
    Except PyErr PyVal :=
  match fuel with
  | 0 => .error .fuelOut
  | fuel + 1 =>
      if isMappingVal data && subOfMapping collection then
        match data with
        | .dict kvs =>
            match buildDictVals fuel env (secondArg collection) config kvs with
            | .error e => .error e
            | .ok pairs => .ok (.dict pairs)
        | _ => .ok data
      else if isTupleVal data && subOfTuple collection then
        .error (.typeError "fixed-tuple reconstruction outside modelled universe")
      else if isCollectionVal data && subOfCollection collection then
        match buildAll fuel env (firstArg collection) config (iterOf data) with
        | .error e => .error e
        | .ok built => classConstructFromIter (pyClassOf data) built
      else .ok data

/-- Elementwise rebuild of an iterated raw value against a declared element
type (the generator consumed by `data_type(...)`). -/
def buildAll (fuel : Nat) (env : Env) (t : PyType) (config : Config) :
    List PyVal → Except PyErr (List PyVal) :=
  fun elems =>
    match fuel with
    | 0 => .error .fuelOut
    | fuel + 1 =>
        match elems with
        | [] => .ok []
        | x :: xs =>
            match _build_value fuel env t x config with
            | .error e => .error e
            | .ok v =>
                match buildAll fuel env t config xs with
                | .error e => .error e
                | .ok vs => .ok (v :: vs)

/-- Valuewise rebuild of a mapping raw value against a declared value type,
preserving keys and their order. -/
def buildDictVals (fuel : Nat) (env : Env) (t : PyType) (config : Config) :
    List (String × PyVal) → Except PyErr (List (String × PyVal)) :=
  fun kvs =>
    match fuel with
    | 0 => .error .fuelOut
    | fuel + 1 =>
        match kvs with
        | [] => .ok []
        | (k, v) :: rest =>
            match _build_value fuel env t v config with
            | .error e => .error e
            | .ok w =>
                match buildDictVals fuel env t config rest with
                | .error e => .error e
                | .ok ws => .ok ((k, w) :: ws)

end

/-- Outcome of the specification-side description of dotted-path
navigation: a value found at the final segment, a missing segment, or a
structural fault at an intermediate segment resolving to a non-map. -/
inductive NavResult where
  | found : PyVal → NavResult
  | missing : NavResult
  | fault : String → NavResult

/-- Specification-side description of dotted-path navigation, following the
spec's words: every non-final segment must resolve to a nested map
containing the next segment (a non-map intermediate is a structural fault
named after its segment), and a present final segment yields its value. -/
def navSpec : List String → List (String × PyVal) → NavResult
  | [], _ => .missing
  | [k], d =>
      match d.lookup k with
      | some v => .found v
      | Option.none => .missing
  | k :: k2 :: rest, d =>
      match d.lookup k with
      | Option.none => .missing
      | some (.dict d2) => navSpec (k2 :: rest) d2
      | some _ => .fault k

/-- Value of a dotted path when it is structurally resolvable, per
`navSpec`. -/
def navValue (p : String) (d : List (String × PyVal)) : Option PyVal :=
  match navSpec (splitDot p) d with
  | .found v => some v
  | _ => Option.none

/-- Value of the first structurally-resolvable candidate path, in order. -/
def firstNav (ps : List String) (d : List (String × PyVal)) : Option PyVal :=
  ps.findSome? fun p => navValue p d

/-- Elements of a sequence-like (non-mapping, non-string) iterable raw
value: a list, tuple or set. -/
def seqElems : PyVal → Option (List PyVal)
  | .list xs => some xs
  | .tuple xs => some xs
  | .set xs => some xs
  | _ => Option.none

/-- Container of the raw value's own runtime class holding rebuilt
elements (a set deduplicates on construction). -/
def rawContainerRebuilt : PyVal → List PyVal → PyVal
  | .tuple _, built => .tuple built
  | .set _, built => .set (pyDedup built)
  | _, built => .list built

/-- Leaf (plain, non-generic, non-composite) declared types of the
modelled universe. -/
def isLeafTy : PyType → Bool
  | .tNone => true
  | .tBool => true
  | .tInt => true
  | .tStr => true
  | _ => false

/-- Environment of the concrete scenario dataclasses used by the
counterexamples and witnesses. -/
def testEnv : Env :=
  [("XOpt", { fields := [{ name := "s", type := .tUnion [.tStr, .tNone] }] }),
   ("XListInt", { fields := [{ name := "xs", type := .tList .tInt }] }),
   ("XListBool", { fields := [{ name := "ys", type := .tList .tBool }] }),
   ("XSkip", { fields := [{ name := "f", type := .tUnion [.tStr, .tNone] }] }),
   ("U1", { fields := [{ name := "i", type := .tInt }] }),
   ("U2", { fields := [{ name := "i", type := .tInt }] }),
   ("XStr", { fields := [{ name := "s", type := .tStr }] }),
   ("XInt", { fields := [{ name := "i", type := .tInt }] })]

/-- ASCII lowercasing of a character (the scenario's hook). -/
def asciiLower (c : Char) : Char :=
  if 'A' ≤ c ∧ c ≤ 'Z' then Char.ofNat (c.toNat + 32) else c

/-- ASCII lowercasing of a string, modelling the scenario's `str.lower`
hook on the ASCII inputs it receives. -/
def strLower (s : String) : String :=
  String.mk (s.data.map asciiLower)

/-- Configuration registering a lowercase hook for the string leaf type. -/
def cfgHook : Config :=
  { type_hooks := [(.tStr, fun v => match v with
      | .str s => .str (strLower s)
      | w => w)] }

/-- Configuration with `strict_unions_match` and `check_types` enabled. -/
def cfgStrictUnion : Config := { strict_unions_match := true }

/-- Configuration with `strict_unions_match` enabled and `check_types`
disabled. -/
def cfgStrictUnionNoCheck : Config :=
  { strict_unions_match := true, check_types := false }

/-- Configuration registering the skip sentinel for field `f` of
`XSkip`. -/
def cfgSkip : Config := { paths := [("XSkip", [("f", .str "SKIPME")])] }

/-- Configuration remapping field `s` of `XStr` to the path `"foo"`. -/
def cfgPathS : Config := { paths := [("XStr", [("s", .str "foo")])] }

/-- Strict-mode configuration. -/
def cfgStrict : Config := { strict := true }

/-!
Helper lemmas shared by the claim theorems.
-/

/-- The segment splitter never yields the empty list. -/
theorem splitDotAux_ne_nil : ∀ (cs acc : List Char), splitDotAux cs acc ≠ []
  | [], acc => by simp [splitDotAux]
  | c :: cs, acc => by
      simp only [splitDotAux]
      split
      · simp
      · exact splitDotAux_ne_nil cs (c :: acc)

/-- Splitting a dotted path always yields at least one segment. -/
theorem splitDot_ne_nil (s : String) : splitDot s ≠ [] :=
  splitDotAux_ne_nil s.data []

/-- Characterisation of the dotted-path walk `_get` by the spec-side
navigation outcome `navSpec`. -/
theorem get_char : ∀ (p : List String) (d : List (String × PyVal))
    (dflt : DefaultVal), p ≠ [] →
    _get p d dflt = (match navSpec p d with
      | .found v => .ok v
      | .missing => defaultOrRaise dflt
      | .fault seg => .error (.keyError ("element is not a dict: " ++ seg)))
  | [], _, _, h => absurd rfl h
  | [k], d, dflt, _ => by
      simp only [_get, navSpec]
      cases d.lookup k <;> simp
  | k :: k2 :: rest, d, dflt, _ => by
      simp only [_get, navSpec]
      cases h : d.lookup k with
      | none => simp
      | some v =>
          cases v <;> simp
          case dict d2 => exact get_char (k2 :: rest) d2 dflt (by simp)

/-- A plain-class constructor call never raises `UnexpectedDataError`. -/
theorem classConstruct_no_ud (t : PyType) (d : PyVal) (ks : List String) :
    classConstruct t d ≠ .error (.unexpectedData ks) := by
  cases t <;> cases d <;> simp [classConstruct] <;>
    (try (cases (String.toInt? _) <;> simp))

/-- A container-class rebuild never raises `UnexpectedDataError`. -/
theorem originConstruct_no_ud (t : PyType) (d : PyVal) (ks : List String) :
    originConstruct t d ≠ .error (.unexpectedData ks) := by
  cases t <;> cases d <;>
    simp [originConstruct, collClass, isCollectionVal, pyClassOf]

/-- An `issubclass` call never raises `UnexpectedDataError`. -/
theorem issubclassCheck_no_ud (t : PyType) (c : PyClass) (ks : List String) :
    issubclassCheck t c ≠ .error (.unexpectedData ks) := by
  cases t <;> simp [issubclassCheck, classOfType]

/-- The casting pass never raises `UnexpectedDataError`. -/
theorem castLoop_no_ud (t : PyType) (d : PyVal) (ks : List String) :
    ∀ casts, castLoop t d casts ≠ .error (.unexpectedData ks) := by
  intro casts
  induction casts with
  | nil => simp [castLoop]
  | cons c rest ih =>
      by_cases h1 : is_subclass_ty t c = true
      · by_cases h2 : is_generic_collection t = true
        · cases ho : originConstruct t d with
          | error e =>
              intro h
              simp [castLoop, h1, h2, ho] at h
              rw [h] at ho
              exact originConstruct_no_ud t d ks ho
          | ok w => intro h; simp [castLoop, h1, h2, ho] at h
        · cases hc : classConstruct t d with
          | error e =>
              intro h
              simp [castLoop, h1, h2, hc] at h
              rw [h] at hc
              exact classConstruct_no_ud t d ks hc
          | ok w => intro h; simp [castLoop, h1, h2, hc] at h
      · intro h
        simp [castLoop, h1] at h
        exact ih h

/-- A path update cannot turn another exception into
`UnexpectedDataError`. -/
theorem update_path_ud (f : String) (e : PyErr) (ks : List String)
    (h : update_path f e = .unexpectedData ks) : e = .unexpectedData ks := by
  cases e <;> simp [update_path] at h <;> simp [h]

/-- The materialised `issubclass` comprehension never raises
`UnexpectedDataError`. -/
theorem issubList_no_ud (cls : PyClass) (ks : List String) :
    ∀ ts, issubList cls ts ≠ .error (.unexpectedData ks) := by
  intro ts
  induction ts with
  | nil => simp [issubList]
  | cons t rest ih =>
      intro h
      simp only [issubList] at h
      cases hc : issubclassCheck t cls with
      | error e =>
          rw [hc] at h
          simp only [Except.error.injEq] at h
          rw [h] at hc
          exact issubclassCheck_no_ud t cls ks hc
      | ok b =>
          rw [hc] at h
          cases hr : issubList cls rest with
          | error e =>
              rw [hr] at h
              simp only [Except.error.injEq] at h
              exact ih (by rw [hr, h])
          | ok bs => rw [hr] at h; simp at h

/-- The or-fold of the `issubclass` comprehension never raises
`UnexpectedDataError`. -/
theorem foldOrSubclass_no_ud (cls : PyClass) (ts : List PyType)
    (ks : List String) :
    foldOrSubclass cls ts ≠ .error (.unexpectedData ks) := by
  intro h
  simp only [foldOrSubclass] at h
  cases hi : issubList cls ts with
  | error e =>
      rw [hi] at h
      simp only [Except.error.injEq] at h
      exact issubList_no_ud cls ks ts (by rw [hi, h])
  | ok bs => rw [hi] at h; cases bs <;> simp at h

/-- The `check_types` verification never raises `UnexpectedDataError`. -/
theorem checkTypesVerify_no_ud (cfg : Config) (f : String) (t : PyType)
    (v : PyVal) (ks : List String) :
    checkTypesVerify cfg f t v ≠ .error (.unexpectedData ks) := by
  intro h
  by_cases h1 : (cfg.allow_superclasses && is_union t) = true
  · cases hf : foldOrSubclass (pyClassOf v) (extract_generic t) with
    | error e =>
        simp [checkTypesVerify, h1, hf] at h
        rw [h] at hf
        exact foldOrSubclass_no_ud (pyClassOf v) (extract_generic t) ks hf
    | ok b => cases b <;> simp [checkTypesVerify, h1, hf] at h
  · by_cases h2 : isGenericAlias t = true
    · cases t with
      | tList e =>
          cases v with
          | list xs =>
              cases xs with
              | nil => simp [checkTypesVerify, h1, h2] at h
              | cons x rest =>
                  cases he : issubclassCheck e (pyClassOf x) with
                  | error er =>
                      simp [checkTypesVerify, h1, h2, he] at h
                      rw [h] at he
                      exact issubclassCheck_no_ud e (pyClassOf x) ks he
                  | ok b => cases b <;> simp [checkTypesVerify, h1, h2, he] at h
          | none => simp [checkTypesVerify, h1, h2] at h
          | bool b => simp [checkTypesVerify, h1, h2] at h
          | int n => simp [checkTypesVerify, h1, h2] at h
          | str s => simp [checkTypesVerify, h1, h2] at h
          | tuple xs => simp [checkTypesVerify, h1, h2] at h
          | set xs => simp [checkTypesVerify, h1, h2] at h
          | dict kvs => simp [checkTypesVerify, h1, h2] at h
          | inst n kvs => simp [checkTypesVerify, h1, h2] at h
      | tSet e => simp [checkTypesVerify, h1, h2] at h
      | tDict kt vt => simp [checkTypesVerify, h1, h2] at h
      | tUnion ms => simp [checkTypesVerify, h1, h2] at h
      | tNone => simp [isGenericAlias] at h2
      | tBool => simp [isGenericAlias] at h2
      | tInt => simp [isGenericAlias] at h2
      | tStr => simp [isGenericAlias] at h2
      | tData n => simp [isGenericAlias] at h2
    · by_cases h4 : is_instance v t = true
      · simp [checkTypesVerify, h1, h2, h4] at h
      · simp [checkTypesVerify, h1, h2, h4] at h
        split at h <;> simp_all

/-- The cast-and-coerce tail of `_build_value` never raises
`UnexpectedDataError`. -/
theorem castAndFollow_no_ud (t : PyType) (d : PyVal) (cfg : Config)
    (ks : List String) :
    castAndFollow t d cfg ≠ .error (.unexpectedData ks) := by
  intro h
  simp only [castAndFollow] at h
  cases hcl : castLoop t d cfg.cast with
  | error e =>
      rw [hcl] at h
      simp only [Except.error.injEq] at h
      rw [h] at hcl
      exact castLoop_no_ud t d ks cfg.cast hcl
  | ok pr =>
      rw [hcl] at h
      obtain ⟨d2, casted⟩ := pr
      simp only at h
      split at h
      · split at h
        · cases d2 <;> (try simp at h)
          rename_i s hcond
          cases hti : String.toInt? s <;> simp [hti] at h
        · simp at h
      · simp at h

/-- Building a value against a leaf declared type never raises
`UnexpectedDataError`. -/
theorem build_leaf_no_ud (fuel : Nat) (env : Env) (t : PyType) (d : PyVal)
    (cfg : Config) (ks : List String) (hleaf : isLeafTy t = true) :
    _build_value fuel env t d cfg ≠ .error (.unexpectedData ks) := by
  cases fuel with
  | zero => simp [_build_value]
  | succ n =>
      intro h
      cases t <;> simp [isLeafTy] at hleaf <;>
        (simp only [_build_value, is_optional, is_union, is_generic_collection] at h
         exact castAndFollow_no_ud _ _ _ ks h)

/-- The dotted-path walk never raises `UnexpectedDataError` unless handed
one as its default. -/
theorem _get_no_ud (p : List String) : ∀ (d : List (String × PyVal))
    (dflt : DefaultVal) (ks : List String),
    (∀ ks2, dflt ≠ .exc (.unexpectedData ks2)) →
    _get p d dflt ≠ .error (.unexpectedData ks) := by
  induction p with
  | nil => intro d dflt ks hd; simp [_get]
  | cons k rest ih =>
      intro d dflt ks hd h
      cases rest with
      | nil =>
          simp only [_get] at h
          cases hl : d.lookup k with
          | none =>
              rw [hl] at h
              cases dflt with
              | exc e =>
                  simp [defaultOrRaise] at h
                  exact hd ks (by rw [h])
              | val v => simp [defaultOrRaise] at h
          | some v => rw [hl] at h; simp at h
      | cons k2 rest2 =>
          simp only [_get] at h
          cases hl : d.lookup k with
          | none =>
              rw [hl] at h
              cases dflt with
              | exc e =>
                  simp [defaultOrRaise] at h
                  exact hd ks (by rw [h])
              | val v => simp [defaultOrRaise] at h
          | some v =>
              rw [hl] at h
              cases v <;> simp at h
              case dict d2 => exact ih d2 dflt ks hd h

/-- The candidate loop never raises `UnexpectedDataError` unless handed one
as its default. -/
theorem deepLoop_no_ud (ps : List String) (d : List (String × PyVal))
    (dflt : DefaultVal) (ks : List String)
    (hd : ∀ ks2, dflt ≠ .exc (.unexpectedData ks2)) :
    deepLoop d dflt ps ≠ .error (.unexpectedData ks) := by
  induction ps with
  | nil =>
      intro h
      simp only [deepLoop] at h
      cases dflt with
      | exc e => simp [defaultOrRaise] at h; exact hd ks (by rw [h])
      | val v => simp [defaultOrRaise] at h
  | cons p rest ih =>
      intro h
      simp only [deepLoop] at h
      cases hg : get p d (.exc (.keyError "")) with
      | ok v => rw [hg] at h; simp at h
      | error e => rw [hg] at h; exact ih h

/-- Ordered-candidate resolution never raises `UnexpectedDataError` unless
handed one as its default. -/
theorem _get_deep_value_no_ud (data : List (String × PyVal)) (pp : PathSpec)
    (dflt : DefaultVal) (ks : List String)
    (hd : ∀ ks2, dflt ≠ .exc (.unexpectedData ks2)) :
    _get_deep_value data pp dflt ≠ .error (.unexpectedData ks) := by
  cases pp with
  | str p => exact _get_no_ud (splitDot p) data dflt ks hd
  | list ps => exact deepLoop_no_ud ps data dflt ks hd

/-- The remapping branch's fallback default is never an
`UnexpectedDataError`. -/
theorem pathBranchDefault_no_ud (fld : FieldDef) (pp : PathSpec)
    (data : List (String × PyVal)) (ks : List String) :
    pathBranchDefault fld pp data ≠ .exc (.unexpectedData ks) := by
  simp only [pathBranchDefault]
  cases get_default_value_for_field fld <;> simp

/-- Resolving one leaf-typed field never raises `UnexpectedDataError`. -/
theorem processField_leaf_no_ud (fuel : Nat) (env : Env) (cls : String)
    (data : List (String × PyVal)) (cfg : Config) (fld : FieldDef)
    (ks : List String) (hleaf : isLeafTy fld.type = true) :
    processField fuel env cls data cfg fld ≠ .error (.unexpectedData ks) := by
  cases fuel with
  | zero => simp [processField]
  | succ n =>
      intro h
      simp only [processField] at h
      cases hp : pathsLookup cfg.paths cls fld.name with
      | some pp =>
          rw [hp] at h
          by_cases hskip : pp = PathSpec.str "SKIPME"
          · simp [hskip] at h
          · simp only [hskip, if_neg, if_false] at h
            cases hdv : _get_deep_value data pp (pathBranchDefault fld pp data) with
            | error e =>
                rw [hdv] at h
                simp only [Except.error.injEq] at h
                rw [h] at hdv
                exact _get_deep_value_no_ud data pp _ ks
                  (fun ks2 => pathBranchDefault_no_ud fld pp data ks2) hdv
            | ok deepData =>
                rw [hdv] at h
                simp only at h
                cases hb : _build_value n env fld.type deepData cfg with
                | error e =>
                    rw [hb] at h
                    simp only [Except.error.injEq] at h
                    rw [h] at hb
                    exact build_leaf_no_ud n env fld.type deepData cfg ks hleaf hb
                | ok v => rw [hb] at h; simp at h
      | none =>
          rw [hp] at h
          cases hl : data.lookup fld.name with
          | some fieldData =>
              rw [hl] at h
              simp only at h
              cases hb : _build_value n env fld.type fieldData cfg with
              | error e =>
                  rw [hb] at h
                  simp only [Except.error.injEq] at h
                  have he : e = .unexpectedData ks := update_path_ud fld.name e ks h
                  rw [he] at hb
                  exact build_leaf_no_ud n env fld.type fieldData cfg ks hleaf hb
              | ok v =>
                  rw [hb] at h
                  by_cases hct : cfg.check_types = true
                  · simp only [hct, if_true] at h
                    cases hcv : checkTypesVerify cfg fld.name fld.type v with
                    | error e =>
                        rw [hcv] at h
                        simp only [Except.error.injEq] at h
                        rw [h] at hcv
                        exact checkTypesVerify_no_ud cfg fld.name fld.type v ks hcv
                    | ok u => rw [hcv] at h; simp at h
                  · simp [hct] at h
          | none =>
              rw [hl] at h
              cases hgd : get_default_value_for_field fld with
              | ok v => rw [hgd] at h; simp at h
              | error e =>
                  rw [hgd] at h
                  by_cases hi : fld.init = true
                  · simp [hi] at h
                  · simp [hi] at h

/-- The field loop over leaf-typed fields never raises
`UnexpectedDataError`. -/
theorem resolveFields_leaf_no_ud (fuel : Nat) : ∀ (env : Env) (cls : String)
    (frozen : Bool) (data : List (String × PyVal)) (cfg : Config)
    (fields : List FieldDef) (ks : List String),
    (∀ fld ∈ fields, isLeafTy fld.type = true) →
    resolveFields fuel env cls frozen data cfg fields
      ≠ .error (.unexpectedData ks) := by
  induction fuel with
  | zero => intro env cls frozen data cfg fields ks hf; simp [resolveFields]
  | succ n ih =>
      intro env cls frozen data cfg fields ks hf h
      simp only [resolveFields] at h
      cases fields with
      | nil => simp at h
      | cons fld rest =>
          simp only at h
          have hfld : isLeafTy fld.type = true := hf fld (by simp)
          have hrest : ∀ g ∈ rest, isLeafTy g.type = true :=
            fun g hg => hf g (by simp [hg])
          cases hpf : processField n env cls data cfg fld with
          | error e =>
              rw [hpf] at h
              simp only [Except.error.injEq] at h
              rw [h] at hpf
              exact processField_leaf_no_ud n env cls data cfg fld ks hfld hpf
          | ok ov =>
              rw [hpf] at h
              cases ov with
              | none => exact ih env cls frozen data cfg rest ks hrest h
              | some v =>
                  simp only at h
                  cases hrf : resolveFields n env cls frozen data cfg rest with
                  | error e =>
                      rw [hrf] at h
                      simp only [Except.error.injEq] at h
                      exact ih env cls frozen data cfg rest ks hrest (by rw [hrf, h])
                  | ok pair =>
                      rw [hrf] at h
                      obtain ⟨inits, posts⟩ := pair
                      simp only at h
                      split at h <;> (try split at h) <;> simp at h

/-- Instance construction never raises `UnexpectedDataError`. -/
theorem initAttrs_no_ud (inits : List (String × PyVal)) (ks : List String) :
    ∀ fields, initAttrs inits fields ≠ .error (.unexpectedData ks) := by
  intro fields
  induction fields with
  | nil => simp [initAttrs]
  | cons fld rest ih =>
      intro h
      simp only [initAttrs] at h
      cases htail : initAttrs inits rest with
      | error e =>
          rw [htail] at h
          repeat' split at h
          all_goals simp [Except.map] at h
          all_goals (rw [h] at htail; exact ih htail)
      | ok xs =>
          rw [htail] at h
          repeat' split at h
          all_goals simp [Except.map] at h

/-- Assembly of a single-field composite whose field is resolved from its
direct key: the outcome is the `check_types` verification applied to the
built value. -/
theorem single_direct_field (fuel : Nat) (env : Env) (cls f : String)
    (t : PyType) (data : List (String × PyVal)) (raw v : PyVal)
    (cfg : Config)
    (henv : env.lookup cls = some { fields := [{ name := f, type := t }] })
    (hct : cfg.check_types = true)
    (hstrict : cfg.strict = false)
    (hpaths : pathsLookup cfg.paths cls f = Option.none)
    (hdata : data.lookup f = some raw)
    (hbuild : _build_value fuel env t raw cfg = .ok v) :
    from_dict (fuel + 3) env cls data cfg =
      (match checkTypesVerify cfg f t v with
       | .error err => .error err
       | .ok _ => .ok (.inst cls [(f, v)])) := by
  cases h : checkTypesVerify cfg f t v with
  | error err =>
      simp [from_dict, henv, hstrict, resolveFields, processField, hpaths,
        hdata, hbuild, hct, h]
  | ok u =>
      simp [from_dict, henv, hstrict, resolveFields, processField, hpaths,
        hdata, hbuild, hct, h, initAttrs, List.lookup, Except.map]

/-!
Claim theorems.
-/

/-- C1 counterexample: with `check_types` enabled and `allow_superclasses`
disabled, a field declared `Optional[str]` fed the non-null, non-string raw
value `42` does NOT fail with `WrongTypeError`: `from_dict` returns an
instance holding the non-conforming value, although the value is not a
structural instance of the declared type.  This refutes the claim as
stated. -/
theorem C1_counterexample :
    from_dict 30 testEnv "XOpt" [("s", .int 42)] defaultConfig
      = .ok (.inst "XOpt" [("s", .int 42)]) ∧
    is_instance (.int 42) (.tUnion [.tStr, .tNone]) = false ∧
    defaultConfig.check_types = true ∧
    defaultConfig.allow_superclasses = false :=
  ⟨rfl, rfl, rfl, rfl⟩

/-- C1 (amended): with `check_types` enabled and `allow_superclasses`
disabled, the structural instance-of verification with `WrongTypeError`
naming the field, the declared type and the value applies only to a
directly-keyed field whose declared type is NOT a generic alias (plain
classes and composites); union, optional and parameterised-collection
declared types bypass it (only list-origin hints get the separate
first-element check), so an `Optional[str]` field holding a non-conforming
value is accepted. -/
theorem C1_amended_plain_class_check (fuel : Nat) (env : Env) (cls f : String)
    (t : PyType) (data : List (String × PyVal)) (raw v : PyVal) (cfg : Config)
    (henv : env.lookup cls = some { fields := [{ name := f, type := t }] })
    (hga : isGenericAlias t = false)
    (hct : cfg.check_types = true)
    (hsup : cfg.allow_superclasses = false)
    (hstrict : cfg.strict = false)
    (hpaths : pathsLookup cfg.paths cls f = Option.none)
    (hdata : data.lookup f = some raw)
    (hbuild : _build_value fuel env t raw cfg = .ok v)
    (hinst : is_instance v t = false) :
    from_dict (fuel + 3) env cls data cfg = .error (.wrongType [f] t v) := by
  rw [single_direct_field fuel env cls f t data raw v cfg henv hct hstrict
    hpaths hdata hbuild]
  simp [checkTypesVerify, hsup, hga, hinst]

/-- C1 witness: an `int`-declared field holding the string `"x"` raises
`WrongTypeError` naming the field, the declared type and the value. -/
theorem C1_witness :
    from_dict 13 testEnv "XInt" [("i", .str "x")] defaultConfig
      = .error (.wrongType ["i"] .tInt (.str "x")) :=
  C1_amended_plain_class_check 10 testEnv "XInt" "i" .tInt
    [("i", .str "x")] (.str "x") (.str "x") defaultConfig
    rfl rfl rfl rfl rfl rfl rfl rfl rfl

/-- C2: with `strict_unions_match` enabled and zero accepted candidates,
the union resolver does NOT fall through to the no-candidate rule: it
evaluates `union_matches.popitem()` on the empty match dict and crashes
with `KeyError`, under `check_types` enabled and disabled alike (the raw
value matches no member of the union).  Evidence for the code-bug verdict
on the claim. -/
theorem C2_strict_zero_match_popitem :
    _build_value_for_union 30 testEnv (.tUnion [.tData "U1", .tData "U2"])
        (.str "zzz") cfgStrictUnion
      = .error (.keyError "popitem(): dictionary is empty") ∧
    _build_value_for_union 30 testEnv (.tUnion [.tData "U1", .tData "U2"])
        (.str "zzz") cfgStrictUnionNoCheck
      = .error (.keyError "popitem(): dictionary is empty") ∧
    is_instance (.str "zzz") (.tData "U1") = false ∧
    is_instance (.str "zzz") (.tData "U2") = false :=
  ⟨rfl, rfl, rfl, rfl⟩

/-- C3 counterexample: a `List[int]` target fed a tuple yields a TUPLE —
the raw value's runtime container type — not a list as the claim states. -/
theorem C3_counterexample :
    _build_value_for_collection 10 testEnv (.tList .tInt) (.tuple [.int 1])
        defaultConfig
      = .ok (.tuple [.int 1]) ∧
    (.ok (.tuple [.int 1]) : Except PyErr PyVal) ≠ .ok (.list [.int 1]) :=
  ⟨rfl, by simp⟩

/-- C3 (amended): for a sequence- or set-kind generic collection target and
a sequence-like iterable raw value, the reconstructor rebuilds each element
against the declared element type, and the resulting container's runtime
type is the RAW value's runtime container type, not the declared
collection's. -/
theorem C3_amended_raw_container (fuel : Nat) (env : Env) (e : PyType)
    (cfg : Config) (raw : PyVal) (elems built : List PyVal)
    (hseq : seqElems raw = some elems)
    (hbuild : buildAll fuel env e cfg elems = .ok built) :
    _build_value_for_collection (fuel + 1) env (.tList e) raw cfg
      = .ok (rawContainerRebuilt raw built) ∧
    _build_value_for_collection (fuel + 1) env (.tSet e) raw cfg
      = .ok (rawContainerRebuilt raw built) := by
  cases raw <;> simp [seqElems] at hseq <;> subst hseq <;>
    constructor <;>
      simp [_build_value_for_collection, isMappingVal, isTupleVal,
        isCollectionVal, pyClassOf, subOfMapping, subOfTuple, subOfCollection,
        collClass, firstArg, iterOf, hbuild, classConstructFromIter,
        rawContainerRebuilt]

/-- C3 witness: a `List[int]` and a `Set[int]` target fed the tuple `(1,)`
both yield the tuple back. -/
theorem C3_witness :
    _build_value_for_collection 11 testEnv (.tList .tInt) (.tuple [.int 1])
        defaultConfig
      = .ok (.tuple [.int 1]) ∧
    _build_value_for_collection 11 testEnv (.tSet .tInt) (.tuple [.int 1])
        defaultConfig
      = .ok (.tuple [.int 1]) :=
  C3_amended_raw_container 10 testEnv .tInt defaultConfig (.tuple [.int 1])
    [.int 1] [.int 1] rfl rfl

/-- C4 counterexample: field `f` is declared `Optional[str]` with no
explicit default, so the default rule "none if the type is optional"
applies; with the skip sentinel registered for `f` and empty input, the
claim predicts success with `f = None` (or `MissingValueError` were there
no default rule) — but `from_dict` fails with the constructor's
missing-argument `TypeError`, because the sentinel skips the field
entirely instead of running default resolution. -/
theorem C4_counterexample :
    from_dict 30 testEnv "XSkip" [] cfgSkip
      = .error (.typeError "missing required argument: f") ∧
    get_default_value_for_field { name := "f", type := .tUnion [.tStr, .tNone] }
      = .ok .none :=
  ⟨rfl, rfl⟩

/-- C4 (amended): a field whose registered path-spec is the skip sentinel
is skipped entirely — the field loop treats the field exactly as if it
were absent from the field list, contributing no resolved value; in
particular the default rules of ordinary default resolution (including
"none if optional") and `MissingValueError` are bypassed, and only the
constructor's own defaults or missing-argument error apply at
construction. -/
theorem C4_amended_skip_entirely (fuel : Nat) (env : Env) (cls : String)
    (frozen : Bool) (data : List (String × PyVal)) (cfg : Config)
    (fld : FieldDef) (rest : List FieldDef)
    (hp : pathsLookup cfg.paths cls fld.name = some (PathSpec.str "SKIPME")) :
    resolveFields (fuel + 2) env cls frozen data cfg (fld :: rest)
      = resolveFields (fuel + 1) env cls frozen data cfg rest := by
  simp [resolveFields, processField, hp]

/-- C4 witness: the skip-sentinel field of `XSkip` contributes nothing to
the resolved field maps. -/
theorem C4_witness :
    resolveFields 12 testEnv "XSkip" false [] cfgSkip
        [{ name := "f", type := .tUnion [.tStr, .tNone] }]
      = .ok ([], []) :=
  C4_amended_skip_entirely 10 testEnv "XSkip" false [] cfgSkip
    { name := "f", type := .tUnion [.tStr, .tNone] } [] rfl

/-- C5 counterexample: the element check of a generic-sequence field runs
`issubclass` the other way round than the claim states: a `List[int]` field
holding `[True]` is REJECTED with `WrongTypeError` and a `List[bool]` field
holding `[1]` is ACCEPTED — the exact opposite of the claim's examples. -/
theorem C5_counterexample :
    from_dict 30 testEnv "XListInt" [("xs", .list [.bool true])] defaultConfig
      = .error (.wrongType ["xs"] (.tList .tInt) (.list [.bool true])) ∧
    from_dict 30 testEnv "XListBool" [("ys", .list [.int 1])] defaultConfig
      = .ok (.inst "XListBool" [("ys", .list [.int 1])]) :=
  ⟨rfl, rfl⟩

/-- C5 (amended): for a directly-keyed field of generic-sequence (list)
declared type, with `check_types` enabled and `allow_superclasses`
disabled, `from_dict` raises `WrongTypeError` unless the built value is
literally a list and, when that list is non-empty, the DECLARED element
type is assignable to (a subclass of, or equal to) the first element's
runtime type. -/
theorem C5_amended_reversed_element_check (fuel : Nat) (env : Env)
    (cls f : String) (e : PyType) (c : PyClass)
    (data : List (String × PyVal)) (raw v : PyVal) (cfg : Config)
    (henv : env.lookup cls = some { fields := [{ name := f, type := .tList e }] })
    (hc : classOfType e = some c)
    (hct : cfg.check_types = true)
    (hsup : cfg.allow_superclasses = false)
    (hstrict : cfg.strict = false)
    (hpaths : pathsLookup cfg.paths cls f = Option.none)
    (hdata : data.lookup f = some raw)
    (hbuild : _build_value fuel env (.tList e) raw cfg = .ok v) :
    from_dict (fuel + 3) env cls data cfg =
      (match v with
       | .list [] => .ok (.inst cls [(f, v)])
       | .list (x :: _) =>
           if pySubclass c (pyClassOf x) then .ok (.inst cls [(f, v)])
           else .error (.wrongType [f] (.tList e) v)
       | _ => .error (.wrongType [f] (.tList e) v)) := by
  rw [single_direct_field fuel env cls f (.tList e) data raw v cfg henv hct
    hstrict hpaths hdata hbuild]
  cases v with
  | list xs =>
      cases xs with
      | nil => simp [checkTypesVerify, hsup, isGenericAlias]
      | cons x rest =>
          by_cases hsub : pySubclass c (pyClassOf x) = true
          · simp [checkTypesVerify, hsup, isGenericAlias, issubclassCheck,
              hc, hsub]
          · simp only [Bool.not_eq_true] at hsub
            simp [checkTypesVerify, hsup, isGenericAlias, issubclassCheck,
              hc, hsub]
  | none => simp [checkTypesVerify, hsup, isGenericAlias]
  | bool b => simp [checkTypesVerify, hsup, isGenericAlias]
  | int n => simp [checkTypesVerify, hsup, isGenericAlias]
  | str s => simp [checkTypesVerify, hsup, isGenericAlias]
  | tuple xs => simp [checkTypesVerify, hsup, isGenericAlias]
  | set xs => simp [checkTypesVerify, hsup, isGenericAlias]
  | dict kvs => simp [checkTypesVerify, hsup, isGenericAlias]
  | inst n kvs => simp [checkTypesVerify, hsup, isGenericAlias]

/-- C5 witness: `List[int]` holding `[True]` is rejected because `int` is
not a subclass of `bool`. -/
theorem C5_witness :
    from_dict 13 testEnv "XListInt" [("xs", .list [.bool true])] defaultConfig
      = .error (.wrongType ["xs"] (.tList .tInt) (.list [.bool true])) :=
  C5_amended_reversed_element_check 10 testEnv "XListInt" "xs" .tInt .intC
    [("xs", .list [.bool true])] (.list [.bool true]) (.list [.bool true])
    defaultConfig rfl rfl rfl rfl rfl rfl rfl rfl

/-- C6: for every non-empty dotted path (as a segment list) over nested-map
data, the navigator's walk returns the value at a present final segment;
on a missing intermediate or final segment it returns the supplied default
unless the default is an error value, which is then raised; and on an
intermediate segment resolving to a non-map it raises a `KeyError` naming
that segment, regardless of the default. -/
theorem C6_get_characterisation (p : List String)
    (d : List (String × PyVal)) (dflt : DefaultVal) (hp : p ≠ []) :
    _get p d dflt = (match navSpec p d with
      | .found v => .ok v
      | .missing => defaultOrRaise dflt
      | .fault seg => .error (.keyError ("element is not a dict: " ++ seg))) :=
  get_char p d dflt hp

/-- C6 witness: a present final segment returns its value; a non-map
intermediate raises `KeyError` even though a plain default is supplied; a
missing final segment raises the supplied error default. -/
theorem C6_witness :
    _get ["a", "b"] [("a", .dict [("b", .int 2)])] (.val (.str "d"))
      = .ok (.int 2) ∧
    _get ["a", "b"] [("a", .int 5)] (.val (.str "d"))
      = .error (.keyError "element is not a dict: a") ∧
    _get ["a", "c"] [("a", .dict [("b", .int 2)])] (.exc (.keyError "nope"))
      = .error (.keyError "nope") :=
  ⟨C6_get_characterisation ["a", "b"] [("a", .dict [("b", .int 2)])]
      (.val (.str "d")) (by decide),
   C6_get_characterisation ["a", "b"] [("a", .int 5)]
      (.val (.str "d")) (by decide),
   C6_get_characterisation ["a", "c"] [("a", .dict [("b", .int 2)])]
      (.exc (.keyError "nope")) (by decide)⟩

/-- C7: ordered-candidate resolution over a list of dotted paths tries each
candidate in order, swallowing any per-path failure, and returns the value
of the first structurally-resolvable candidate (even when a later candidate
would also resolve); when every candidate fails it falls back to the
caller-supplied default, raising it when it is an error value and returning
it otherwise. -/
theorem C7_first_candidate_wins (ps : List String)
    (d : List (String × PyVal)) (dflt : DefaultVal) :
    _get_deep_value d (.list ps) dflt = (match firstNav ps d with
      | some v => .ok v
      | Option.none => defaultOrRaise dflt) := by
  simp only [_get_deep_value]
  induction ps with
  | nil => simp [deepLoop, firstNav]
  | cons p rest ih =>
      simp only [deepLoop]
      rw [show Dacite.get p d (.exc (.keyError ""))
        = _get (splitDot p) d (.exc (.keyError "")) from rfl]
      rw [get_char _ _ _ (splitDot_ne_nil p)]
      cases hnav : navSpec (splitDot p) d with
      | found v => simp [navValue, hnav, firstNav]
      | missing => simpa [navValue, hnav, defaultOrRaise, firstNav] using ih
      | fault seg => simpa [navValue, hnav, firstNav] using ih

/-- C7 witness: the first structurally-resolvable candidate wins although
the later candidate would also resolve; and when every candidate fails the
caller's plain default is returned. -/
theorem C7_witness :
    _get_deep_value [("a", .dict [("b", .int 1)]), ("c", .int 2)]
        (.list ["a.b", "c"]) (.val (.str "d"))
      = .ok (.int 1) ∧
    navValue "c" [("a", .dict [("b", .int 1)]), ("c", .int 2)]
      = some (.int 2) ∧
    _get_deep_value [("a", .dict [("b", .int 1)]), ("c", .int 2)]
        (.list ["zz", "q.r"]) (.val (.str "d"))
      = .ok (.str "d") :=
  ⟨C7_first_candidate_wins ["a.b", "c"]
      [("a", .dict [("b", .int 1)]), ("c", .int 2)] (.val (.str "d")),
   rfl,
   C7_first_candidate_wins ["zz", "q.r"]
      [("a", .dict [("b", .int 1)]), ("c", .int 2)] (.val (.str "d"))⟩

/-- C8: with a lowercase hook registered for the string leaf type and a
field declared `Optional[str]`, converting `{"s": "TEST"}` produces
`s = "test"` (the hook runs on the non-null value through the optional
fast path) and converting `{"s": None}` produces `s = None` (the null
value short-circuits), with no error in either case. -/
theorem C8_optional_hook_scenario :
    from_dict 30 testEnv "XOpt" [("s", .str "TEST")] cfgHook
      = .ok (.inst "XOpt" [("s", .str "test")]) ∧
    from_dict 30 testEnv "XOpt" [("s", .none)] cfgHook
      = .ok (.inst "XOpt" [("s", .none)]) :=
  ⟨rfl, rfl⟩

/-- C9: for every composite and raw map, when strict mode is enabled and
some raw key matches no declared field name, `from_dict` fails with
`UnexpectedDataError` listing exactly the unmatched keys — before any field
is resolved, whatever the fields hold; and when every raw key matches a
field name, `UnexpectedDataError` is never raised (stated for composites
whose declared field types are leaves, so that no nested composite
performs its own strict check on a nested map). -/
theorem C9_strict_unexpected_keys (fuel : Nat) (env : Env) (cls : String)
    (dcd : DataClassDef) (data : List (String × PyVal)) (cfg : Config)
    (henv : env.lookup cls = some dcd) :
    (cfg.strict = true → extraKeys data dcd.fields ≠ [] →
       from_dict (fuel + 1) env cls data cfg
         = .error (.unexpectedData (extraKeys data dcd.fields))) ∧
    (extraKeys data dcd.fields = [] →
       (∀ fld ∈ dcd.fields, isLeafTy fld.type = true) →
       ∀ ks, from_dict (fuel + 1) env cls data cfg
         ≠ .error (.unexpectedData ks)) := by
  constructor
  · intro hs hne
    simp [from_dict, henv, hs, List.isEmpty_eq_false.mpr hne]
  · intro hempty hleaf ks h
    cases hrf : resolveFields fuel env cls dcd.frozen data cfg dcd.fields with
    | error e =>
        simp [from_dict, henv, hempty, hrf] at h
        rw [h] at hrf
        exact resolveFields_leaf_no_ud fuel env cls dcd.frozen data cfg
          dcd.fields ks hleaf hrf
    | ok pair =>
        obtain ⟨inits, posts⟩ := pair
        cases hia : initAttrs inits dcd.fields with
        | error e =>
            simp [from_dict, henv, hempty, hrf, hia] at h
            rw [h] at hia
            exact initAttrs_no_ud inits ks dcd.fields hia
        | ok attrs => simp [from_dict, henv, hempty, hrf, hia] at h

/-- C9 witness: the spec scenario — strict mode over `X{s: str}` with input
`{"s": "test", "i": 1}` fails with `UnexpectedDataError` naming `i`; with
input `{"s": "test"}` no `UnexpectedDataError` is raised. -/
theorem C9_witness :
    from_dict 31 testEnv "XStr" [("s", .str "test"), ("i", .int 1)] cfgStrict
      = .error (.unexpectedData ["i"]) ∧
    from_dict 31 testEnv "XStr" [("s", .str "test")] cfgStrict
      ≠ .error (.unexpectedData ["i"]) :=
  ⟨(C9_strict_unexpected_keys 30 testEnv "XStr"
      { fields := [{ name := "s", type := .tStr }] }
      [("s", .str "test"), ("i", .int 1)] cfgStrict rfl).1 rfl (by decide),
   (C9_strict_unexpected_keys 30 testEnv "XStr"
      { fields := [{ name := "s", type := .tStr }] }
      [("s", .str "test")] cfgStrict rfl).2 rfl (by decide) ["i"]⟩

/-- C10: a field resolved through a registered non-sentinel path-spec is
accepted by the assembler exactly as the value builder produced it — no
`check_types` verification is applied, so no `WrongTypeError` can be raised
by the assembler for the field — and a build error propagates as-is, its
location path NOT prepended with the field's name. -/
theorem C10_path_field_unchecked (fuel : Nat) (env : Env) (cls : String)
    (frozen : Bool) (data : List (String × PyVal)) (cfg : Config)
    (fld : FieldDef) (rest : List FieldDef) (pp : PathSpec) (deepData : PyVal)
    (hpp : pathsLookup cfg.paths cls fld.name = some pp)
    (hskip : pp ≠ PathSpec.str "SKIPME")
    (hdeep : _get_deep_value data pp (pathBranchDefault fld pp data)
      = .ok deepData) :
    (∀ v, _build_value fuel env fld.type deepData cfg = .ok v →
       resolveFields (fuel + 2) env cls frozen data cfg (fld :: rest) =
         (match resolveFields (fuel + 1) env cls frozen data cfg rest with
          | .error err => .error err
          | .ok (inits, posts) =>
              if fld.init then .ok ((fld.name, v) :: inits, posts)
              else if !frozen then .ok (inits, (fld.name, v) :: posts)
              else .ok (inits, posts))) ∧
    (∀ err, _build_value fuel env fld.type deepData cfg = .error err →
       resolveFields (fuel + 2) env cls frozen data cfg (fld :: rest)
         = .error err) := by
  constructor
  · intro v hv
    simp only [resolveFields, processField, hpp, hskip, hdeep, hv, if_neg]
    rfl
  · intro err he
    simp [resolveFields, processField, hpp, hskip, hdeep, he]

/-- C10 witness: the `str`-declared field `s` of `XStr`, remapped to path
`"foo"`, accepts the integer `7` found there without any type check. -/
theorem C10_witness :
    resolveFields 12 testEnv "XStr" false [("foo", .int 7)] cfgPathS
        [{ name := "s", type := .tStr }]
      = .ok ([("s", .int 7)], []) :=
  (C10_path_field_unchecked 10 testEnv "XStr" false [("foo", .int 7)]
      cfgPathS { name := "s", type := .tStr } [] (.str "foo") (.int 7)
      rfl (by decide) rfl).1 (.int 7) rfl

end Dacite
